import Mathlib

/- Shallow embedding of the travel-fund focus-session application
   (src/types.ts and src/App.tsx).

   Conventions of the embedding:
   - JavaScript numbers holding currency amounts and counters become `Int`
     (all arithmetic performed on them in the source is integer arithmetic).
   - Epoch-millisecond timestamps produced by `Date.now()` become `Nat`
     parameters `now` threaded into each operation that reads the clock.
   - `Math.random()` becomes a rational parameter `rand`; the weighted
     probabilities of the lottery table become exact rationals.
   - `Math.floor(x / 1000)` on a possibly negative difference of timestamps
     becomes `Int` division, which rounds toward negative infinity for the
     positive divisor 1000.
   - React state variables become fields of `ComponentState`; the persisted
     snapshot (`AppState` in types.ts) is a separate structure, with
     `saveState` / `loadState` modelling the two persistence effects. -/

/- types.ts: RecordType -/
inductive RecordType where
  | SUCCESS
  | FAILURE
  | LOTTERY
  deriving DecidableEq, Repr

/- types.ts: HistoryRecord -/
structure HistoryRecord where
  id : String
  type : RecordType
  amount : Int
  timestamp : Nat
  description : String
  deriving DecidableEq, Repr

/- types.ts: AppState, the persisted snapshot -/
structure AppState where
  fund : Int
  target : Int
  successCount : Int
  spinsAvailable : Int
  records : List HistoryRecord
  sessionStartTime : Option Nat
  deriving DecidableEq, Repr

/- types.ts: LotteryRule -/
structure LotteryRule where
  label : String
  amount : Int
  probability : ℚ
  color : String
  deriving DecidableEq, Repr

instance : Inhabited LotteryRule :=
  ⟨{ label := "", amount := 0, probability := 0, color := "" }⟩

/- App.tsx constants -/
def TARGET_AMOUNT : Int := 1000

def SESSION_DURATION : Int := 5 * 60

def PLEDGE_AMOUNT : Int := 10

def PENALTY_TOTAL : Int := 20

def RECORD_FAIL_AMOUNT : Int := -10

def RECORD_SUCCESS_AMOUNT : Int := 10

def SPINS_THRESHOLD : Int := 5

def LOTTERY_RULES : List LotteryRule :=
  [{ label := "Minor Encouragement", amount := 10, probability := 0.4, color := "text-blue-500" },
   { label := "Medium Surprise", amount := 20, probability := 0.3, color := "text-green-500" },
   { label := "Big Explosion", amount := 40, probability := 0.2, color := "text-purple-500" },
   { label := "Super Jackpot", amount := 60, probability := 0.1, color := "text-red-500" }]

/- The React state of the App component: fund, records, successCount,
   spinsAvailable, sessionStartTime, isTimerRunning, timeLeft.
   Modal/selection state is pure UI and is not part of the embedding. -/
structure ComponentState where
  fund : Int
  records : List HistoryRecord
  successCount : Int
  spinsAvailable : Int
  sessionStartTime : Option Nat
  isTimerRunning : Bool
  timeLeft : Int
  deriving DecidableEq, Repr

/- Initial useState values in App.tsx -/
def defaultState : ComponentState :=
  { fund := 0, records := [], successCount := 0, spinsAvailable := 0,
    sessionStartTime := none, isTimerRunning := false, timeLeft := SESSION_DURATION }

/- A record as built inline in App.tsx: id is Date.now().toString(),
   timestamp is Date.now(). -/
def mkRecord (now : Nat) (type : RecordType) (amount : Int) (description : String) :
    HistoryRecord :=
  { id := Nat.repr now, type := type, amount := amount, timestamp := now,
    description := description }

/- App.tsx addStandardRecord: prepends a record and adds its amount to fund -/
def addStandardRecord (now : Nat) (type : RecordType) (amount : Int)
    (description : String) (s : ComponentState) : ComponentState :=
  { s with records := mkRecord now type amount description :: s.records,
           fund := s.fund + amount }

/- App.tsx finishTimer: session success -/
def finishTimer (now : Nat) (s : ComponentState) : ComponentState :=
  let newCount := s.successCount + 1
  { s with isTimerRunning := false,
           sessionStartTime := none,
           timeLeft := SESSION_DURATION,
           records := mkRecord now RecordType.SUCCESS RECORD_SUCCESS_AMOUNT
                        "Focus Success" :: s.records,
           successCount := newCount,
           spinsAvailable :=
             if newCount % SPINS_THRESHOLD = 0 then s.spinsAvailable + 1
             else s.spinsAvailable }

/- App.tsx startTimer: session start (pledge, no record) -/
def startTimer (now : Nat) (s : ComponentState) : ComponentState :=
  { s with isTimerRunning := true,
           sessionStartTime := some now,
           timeLeft := SESSION_DURATION,
           fund := s.fund + PLEDGE_AMOUNT }

/- App.tsx stopTimer: abandoning a session -/
def stopTimer (now : Nat) (s : ComponentState) : ComponentState :=
  { s with isTimerRunning := false,
           sessionStartTime := none,
           timeLeft := SESSION_DURATION,
           fund := s.fund - PENALTY_TOTAL,
           records := mkRecord now RecordType.FAILURE RECORD_FAIL_AMOUNT
                        "Given Up" :: s.records }

/- App.tsx deleteRecord: find the selected record, subtract its amount from
   fund, and remove every record whose id equals the selected id -/
def deleteRecord (selectedRecordId : String) (s : ComponentState) : ComponentState :=
  match s.records.find? (fun r => r.id == selectedRecordId) with
  | some record =>
      { s with fund := s.fund - record.amount,
               records := s.records.filter (fun r => !(r.id == selectedRecordId)) }
  | none => s

/- The for-loop in App.tsx playLottery: walk the rules accumulating
   probability; on the first rule with rand <= cumulative, select it and
   break.  The accumulator starts at 0 and the initial selection is
   LOTTERY_RULES[0]. -/
def selectLoop (rand : ℚ) : List LotteryRule → ℚ → LotteryRule → LotteryRule
  | [], _, selectedRule => selectedRule
  | rule :: rest, cumulative, selectedRule =>
      let c := cumulative + rule.probability
      if rand ≤ c then rule else selectLoop rand rest c selectedRule

def selectRule (rand : ℚ) : LotteryRule :=
  selectLoop rand LOTTERY_RULES 0 (LOTTERY_RULES[0]!)

/- App.tsx playLottery: guarded on spinsAvailable, consumes one spin, draws
   a rule and appends a Lottery record via addStandardRecord -/
def playLottery (rand : ℚ) (now : Nat) (s : ComponentState) : ComponentState :=
  if s.spinsAvailable ≤ 0 then s
  else
    let selectedRule := selectRule rand
    addStandardRecord now RecordType.LOTTERY selectedRule.amount
      ("Lottery: " ++ selectedRule.label)
      { s with spinsAvailable := s.spinsAvailable - 1 }

/- Modelled from the spec (section 4.3 draw): walk the table in declared
   order accumulating probability mass and select the first tier whose
   running cumulative sum is >= r; if no tier satisfies the condition,
   default to the final tier.  This definition follows the spec words and
   exists to be compared with selectRule, the definition from the source. -/
def specWalk (r : ℚ) : List LotteryRule → ℚ → Option LotteryRule
  | [], _ => none
  | rule :: rest, acc =>
      let c := acc + rule.probability
      if c ≥ r then some rule else specWalk r rest c

/- Modelled from the spec (section 4.3 draw), fallback included. -/
def specDraw (r : ℚ) : LotteryRule :=
  match specWalk r LOTTERY_RULES 0 with
  | some rule => rule
  | none => LOTTERY_RULES.getLast!

/- The load effect in App.tsx: copy the parsed snapshot fields into the
   component state; if a truthy sessionStartTime is present, compute
   elapsed seconds via Math.floor and resume the session when remaining
   time is positive, else leave sessionStartTime cleared. -/
def loadState (a : AppState) (now : Nat) : ComponentState :=
  let base : ComponentState :=
    { fund := a.fund, records := a.records, successCount := a.successCount,
      spinsAvailable := a.spinsAvailable, sessionStartTime := none,
      isTimerRunning := false, timeLeft := SESSION_DURATION }
  match a.sessionStartTime with
  | none => base
  | some t =>
      if t = 0 then base
      else
        let elapsedSeconds : Int := ((now : Int) - (t : Int)) / 1000
        let remaining : Int := SESSION_DURATION - elapsedSeconds
        if 0 < remaining then
          { base with sessionStartTime := some t, timeLeft := remaining,
                      isTimerRunning := true }
        else base

/- The save effect in App.tsx: the persisted snapshot is built from the
   current state with the constant target -/
def saveState (c : ComponentState) : AppState :=
  { fund := c.fund, target := TARGET_AMOUNT, successCount := c.successCount,
    spinsAvailable := c.spinsAvailable, records := c.records,
    sessionStartTime := c.sessionStartTime }

def roundTrip (a : AppState) (now : Nat) : AppState :=
  saveState (loadState a now)

/- Controller operations as exposed through the UI.  The UI only offers
   start while the timer is stopped and abandon/expire while it runs;
   runOp encodes exactly those guards, the operations themselves are the
   unguarded functions above. -/
inductive Op where
  | start (now : Nat)
  | abandon (now : Nat)
  | expire (now : Nat)
  | lottery (rand : ℚ) (now : Nat)
  | delete (id : String)
  deriving DecidableEq, Repr

def runOp (s : ComponentState) : Op → Option ComponentState
  | Op.start now => if s.isTimerRunning then none else some (startTimer now s)
  | Op.abandon now => if s.isTimerRunning then some (stopTimer now s) else none
  | Op.expire now => if s.isTimerRunning then some (finishTimer now s) else none
  | Op.lottery rand now => some (playLottery rand now s)
  | Op.delete i => some (deleteRecord i s)

def runOps (s : ComponentState) : List Op → Option ComponentState
  | [] => some s
  | op :: ops =>
      match runOp s op with
      | some s1 => runOps s1 ops
      | none => none

def hasRecordId (s : ComponentState) (i : String) : Bool :=
  s.records.any (fun r => r.id == i)

/- An operation is id-fresh at a state when the record it would create (if
   any) carries an id not already present among the records -/
def opFresh (s : ComponentState) : Op → Bool
  | Op.start _ => true
  | Op.delete _ => true
  | Op.abandon now => !(hasRecordId s (Nat.repr now))
  | Op.expire now => !(hasRecordId s (Nat.repr now))
  | Op.lottery _ now =>
      if s.spinsAvailable ≤ 0 then true else !(hasRecordId s (Nat.repr now))

def freshRun (s : ComponentState) : List Op → Bool
  | [] => true
  | op :: ops =>
      opFresh s op &&
        (match runOp s op with
         | some s1 => freshRun s1 ops
         | none => true)

def recordSum (l : List HistoryRecord) : Int :=
  (l.map (fun r => r.amount)).sum

/- The outstanding unrecorded pledge: 10 while a session is active -/
def pledgeOf (s : ComponentState) : Int :=
  if s.sessionStartTime.isSome then PLEDGE_AMOUNT else 0

def FundInvariant (s : ComponentState) : Prop :=
  s.fund = recordSum s.records + pledgeOf s

def StateInvariant (s : ComponentState) : Prop :=
  s.isTimerRunning = s.sessionStartTime.isSome ∧
  (s.records.map (fun r => r.id)).Nodup ∧
  FundInvariant s

/- Five successful sessions in a row from the default state, with strictly
   increasing clock values -/
def fiveSessions : List Op :=
  [Op.start 1, Op.expire 2, Op.start 3, Op.expire 4, Op.start 5, Op.expire 6,
   Op.start 7, Op.expire 8, Op.start 9, Op.expire 10]

def tenSessions : List Op :=
  fiveSessions ++
    [Op.start 11, Op.expire 12, Op.start 13, Op.expire 14, Op.start 15, Op.expire 16,
     Op.start 17, Op.expire 18, Op.start 19, Op.expire 20]

def stateAfterFive : ComponentState :=
  (runOps defaultState fiveSessions).getD defaultState

/- Helper lemmas -/

theorem recordSum_cons (r : HistoryRecord) (l : List HistoryRecord) :
    recordSum (r :: l) = r.amount + recordSum l := by
  simp [recordSum]

theorem length_filter_not_add_countP {α : Type} (p : α → Bool) (l : List α) :
    (l.filter (fun x => !(p x))).length + l.countP p = l.length := by
  induction l with
  | nil => simp
  | cons a l ih =>
      cases h : p a <;> simp [List.filter_cons, List.countP_cons, h] <;> omega

theorem recordSum_filter_of_nodup (i : String) :
    ∀ (l : List HistoryRecord) (r : HistoryRecord),
      (l.map (fun x => x.id)).Nodup →
      l.find? (fun x => x.id == i) = some r →
      recordSum (l.filter (fun x => !(x.id == i))) = recordSum l - r.amount := by
  intro l
  induction l with
  | nil => intro r _ hf; simp at hf
  | cons a l ih =>
      intro r hnd hf
      rw [List.map_cons, List.nodup_cons] at hnd
      cases hpa : (a.id == i) with
      | true =>
          have hai : a.id = i := by simpa using hpa
          have har : a = r := by simp [List.find?, hpa] at hf; exact hf
          have hl : l.filter (fun x => !(x.id == i)) = l := by
            apply List.filter_eq_self.mpr
            intro x hx
            simp only [Bool.not_eq_true', beq_eq_false_iff_ne, ne_eq]
            intro hxi
            exact hnd.1 (List.mem_map.mpr ⟨x, hx, by rw [hxi, hai]⟩)
          have hfc : (a :: l).filter (fun x => !(x.id == i)) = l := by
            rw [List.filter_cons]
            simp [hpa, hl]
          rw [hfc, recordSum_cons, ← har]
          omega
      | false =>
          have hf' : l.find? (fun x => x.id == i) = some r := by
            simp [List.find?, hpa] at hf; exact hf
          have hfc : (a :: l).filter (fun x => !(x.id == i))
              = a :: l.filter (fun x => !(x.id == i)) := by
            rw [List.filter_cons]
            simp [hpa]
          rw [hfc, recordSum_cons, recordSum_cons, ih r hnd.2 hf']
          omega

theorem nodup_ids_filter (p : HistoryRecord → Bool) (l : List HistoryRecord)
    (h : (l.map (fun x => x.id)).Nodup) :
    ((l.filter p).map (fun x => x.id)).Nodup :=
  h.sublist ((List.filter_sublist l).map (fun x => x.id))

theorem not_hasRecordId_iff (s : ComponentState) (i : String) :
    hasRecordId s i = false ↔ i ∉ s.records.map (fun r => r.id) := by
  simp [hasRecordId, List.any_eq_true, List.mem_map]

theorem stateInvariant_runOp (s s' : ComponentState) (op : Op)
    (hInv : StateInvariant s) (hFresh : opFresh s op = true)
    (hRun : runOp s op = some s') : StateInvariant s' := by
  obtain ⟨hCouple, hNodup, hFund⟩ := hInv
  have hFund' : s.fund = recordSum s.records + pledgeOf s := hFund
  cases op with
  | start now =>
      cases hT : s.isTimerRunning with
      | true => simp [runOp, hT] at hRun
      | false =>
          simp [runOp, hT] at hRun
          subst hRun
          have hNone : s.sessionStartTime = none := by
            cases h : s.sessionStartTime with
            | none => rfl
            | some t => rw [hT, h] at hCouple; simp at hCouple
          refine ⟨by simp [startTimer], by simp [startTimer]; exact hNodup, ?_⟩
          show (startTimer now s).fund = recordSum (startTimer now s).records
            + pledgeOf (startTimer now s)
          simp [startTimer, pledgeOf, hNone] at hFund' ⊢
          omega
  | abandon now =>
      cases hT : s.isTimerRunning with
      | false => simp [runOp, hT] at hRun
      | true =>
          simp [runOp, hT] at hRun
          subst hRun
          have hSome : s.sessionStartTime.isSome = true := by rw [← hCouple, hT]
          have hNew : Nat.repr now ∉ s.records.map (fun r => r.id) := by
            rw [← not_hasRecordId_iff]
            simpa [opFresh] using hFresh
          refine ⟨by simp [stopTimer], ?_, ?_⟩
          · simp only [stopTimer, List.map_cons, List.nodup_cons]
            exact ⟨hNew, hNodup⟩
          · show (stopTimer now s).fund = recordSum (stopTimer now s).records
              + pledgeOf (stopTimer now s)
            simp [stopTimer, pledgeOf, recordSum_cons, mkRecord, hSome,
              PENALTY_TOTAL, RECORD_FAIL_AMOUNT, PLEDGE_AMOUNT] at hFund' ⊢
            omega
  | expire now =>
      cases hT : s.isTimerRunning with
      | false => simp [runOp, hT] at hRun
      | true =>
          simp [runOp, hT] at hRun
          subst hRun
          have hSome : s.sessionStartTime.isSome = true := by rw [← hCouple, hT]
          have hNew : Nat.repr now ∉ s.records.map (fun r => r.id) := by
            rw [← not_hasRecordId_iff]
            simpa [opFresh] using hFresh
          refine ⟨by simp [finishTimer], ?_, ?_⟩
          · simp only [finishTimer, List.map_cons, List.nodup_cons]
            exact ⟨hNew, hNodup⟩
          · show (finishTimer now s).fund = recordSum (finishTimer now s).records
              + pledgeOf (finishTimer now s)
            simp [finishTimer, pledgeOf, recordSum_cons, mkRecord, hSome,
              RECORD_SUCCESS_AMOUNT, PLEDGE_AMOUNT] at hFund' ⊢
            omega
  | lottery rand now =>
      simp [runOp] at hRun
      subst hRun
      by_cases hSpin : s.spinsAvailable ≤ 0
      · have hs : playLottery rand now s = s := by simp [playLottery, hSpin]
        rw [hs]
        exact ⟨hCouple, hNodup, hFund⟩
      · have hNew : Nat.repr now ∉ s.records.map (fun r => r.id) := by
          rw [← not_hasRecordId_iff]
          simpa [opFresh, hSpin] using hFresh
        have hRecords : (playLottery rand now s).records
            = mkRecord now RecordType.LOTTERY (selectRule rand).amount
                ("Lottery: " ++ (selectRule rand).label) :: s.records := by
          simp [playLottery, hSpin, addStandardRecord]
        have hNewFund : (playLottery rand now s).fund
            = s.fund + (selectRule rand).amount := by
          simp [playLottery, hSpin, addStandardRecord]
        have hSess : (playLottery rand now s).sessionStartTime
            = s.sessionStartTime := by
          simp [playLottery, hSpin, addStandardRecord]
        have hTimer : (playLottery rand now s).isTimerRunning
            = s.isTimerRunning := by
          simp [playLottery, hSpin, addStandardRecord]
        refine ⟨by rw [hTimer, hSess]; exact hCouple, ?_, ?_⟩
        · rw [hRecords, List.map_cons, List.nodup_cons]
          exact ⟨hNew, hNodup⟩
        · show (playLottery rand now s).fund
            = recordSum (playLottery rand now s).records
              + pledgeOf (playLottery rand now s)
          rw [hNewFund, hRecords, recordSum_cons]
          unfold pledgeOf at hFund' ⊢
          rw [hSess]
          simp only [mkRecord]
          omega
  | delete i =>
      simp [runOp] at hRun
      subst hRun
      cases hFind : s.records.find? (fun r => r.id == i) with
      | none =>
          have hs : deleteRecord i s = s := by simp [deleteRecord, hFind]
          rw [hs]
          exact ⟨hCouple, hNodup, hFund⟩
      | some record =>
          have hRecords : (deleteRecord i s).records
              = s.records.filter (fun r => !(r.id == i)) := by
            simp [deleteRecord, hFind]
          have hNewFund : (deleteRecord i s).fund = s.fund - record.amount := by
            simp [deleteRecord, hFind]
          have hSess : (deleteRecord i s).sessionStartTime = s.sessionStartTime := by
            simp [deleteRecord, hFind]
          have hTimer : (deleteRecord i s).isTimerRunning = s.isTimerRunning := by
            simp [deleteRecord, hFind]
          refine ⟨by rw [hTimer, hSess]; exact hCouple, ?_, ?_⟩
          · rw [hRecords]
            exact nodup_ids_filter _ _ hNodup
          · show (deleteRecord i s).fund = recordSum (deleteRecord i s).records
              + pledgeOf (deleteRecord i s)
            rw [hNewFund, hRecords, recordSum_filter_of_nodup i s.records record hNodup hFind]
            unfold pledgeOf at hFund' ⊢
            rw [hSess]
            omega

theorem stateInvariant_runOps :
    ∀ (ops : List Op) (s s' : ComponentState),
      StateInvariant s → freshRun s ops = true → runOps s ops = some s' →
      StateInvariant s' := by
  intro ops
  induction ops with
  | nil =>
      intro s s' h _ hr
      simp [runOps] at hr
      rwa [← hr]
  | cons op ops ih =>
      intro s s' h hf hr
      simp only [runOps] at hr
      cases hop : runOp s op with
      | none => rw [hop] at hr; simp at hr
      | some s1 =>
          rw [hop] at hr
          simp only [freshRun, hop, Bool.and_eq_true] at hf
          exact ih s1 s' (stateInvariant_runOp s s1 op h hf.1 hop) hf.2 hr

theorem stateInvariant_default : StateInvariant defaultState := by
  refine ⟨rfl, by simp [defaultState], ?_⟩
  show defaultState.fund = recordSum defaultState.records + pledgeOf defaultState
  simp [defaultState, recordSum, pledgeOf]

theorem remaining_pos_iff (x : Int) :
    0 < SESSION_DURATION - x / 1000 ↔ x < SESSION_DURATION * 1000 := by
  simp only [SESSION_DURATION]
  omega

theorem selectLoop_mem (rand : ℚ) :
    ∀ (l : List LotteryRule) (acc : ℚ) (sel : LotteryRule),
      (∀ x ∈ l, x ∈ LOTTERY_RULES) → sel ∈ LOTTERY_RULES →
      selectLoop rand l acc sel ∈ LOTTERY_RULES := by
  intro l
  induction l with
  | nil => intro acc sel _ hsel; simpa [selectLoop] using hsel
  | cons a l ih =>
      intro acc sel hl hsel
      simp only [selectLoop]
      by_cases hc : rand ≤ acc + a.probability
      · simp only [hc, if_true]
        exact hl a (by simp)
      · simp only [hc, if_false]
        exact ih _ sel (fun x hx => hl x (by simp [hx])) hsel

/- Claim theorems -/

/-- C1 counterexample: the fund-reconciliation invariant fails on the real
    code for a guarded operation sequence in which two Failure records are
    created in the same millisecond (sharing id "5") and that id is then
    deleted: deleteRecord removes both records but refunds only the first
    amount, leaving fund = -10 while the records sum plus pledge is 0. -/
theorem C1_counterexample :
    runOps defaultState
        [Op.start 5, Op.abandon 5, Op.start 5, Op.abandon 5, Op.delete "5"]
      = some ⟨-10, [], 0, 0, none, false, SESSION_DURATION⟩ ∧
    (-10 : Int) ≠ recordSum ([] : List HistoryRecord)
      + pledgeOf ⟨-10, [], 0, 0, none, false, SESSION_DURATION⟩ := by
  exact ⟨by decide, by decide⟩

/-- C1 (amended): for every sequence of the guarded controller operations
    (start, abandon, expire, lottery draw, record delete) from the default
    state in which every record-creating operation happens at a millisecond
    timestamp whose decimal string is not already the id of a present
    record, the fund equals the sum of the amount fields of all
    currently-present records, plus the pledge amount of 10 if and only if
    a session is currently active (sessionStartTime non-null). -/
theorem C1_fund_invariant (ops : List Op) (s' : ComponentState)
    (hFresh : freshRun defaultState ops = true)
    (hRun : runOps defaultState ops = some s') :
    s'.fund = recordSum s'.records + pledgeOf s' :=
  (stateInvariant_runOps ops defaultState s' stateInvariant_default hFresh hRun).2.2

/-- Witness for C1: after start at t=1 and abandon at t=2 the invariant
    holds at the concrete resulting state. -/
theorem C1_fund_invariant_witness :
    (⟨-10, [mkRecord 2 RecordType.FAILURE (-10) "Given Up"], 0, 0, none, false,
        SESSION_DURATION⟩ : ComponentState).fund
      = recordSum (⟨-10, [mkRecord 2 RecordType.FAILURE (-10) "Given Up"], 0, 0,
            none, false, SESSION_DURATION⟩ : ComponentState).records
        + pledgeOf ⟨-10, [mkRecord 2 RecordType.FAILURE (-10) "Given Up"], 0, 0,
            none, false, SESSION_DURATION⟩ :=
  C1_fund_invariant [Op.start 1, Op.abandon 2] _ (by decide) (by decide)

/-- C2: for every random value r in [0,1), the code draw walks the table in
    declared order and selects the first tier whose running cumulative
    probability sum is at least r; it agrees with the spec-modelled walk
    whose fallback is the final tier (the fallback is unreachable for
    r < 1 in exact arithmetic), and the result is always one of the four
    declared tiers. -/
theorem C2_draw (r : ℚ) (h0 : 0 ≤ r) (h1 : r < 1) :
    selectRule r = specDraw r ∧ selectRule r ∈ LOTTERY_RULES := by
  have h2 : r ≤ 1 := le_of_lt h1
  constructor
  · simp only [selectRule, specDraw, specWalk, selectLoop, LOTTERY_RULES, ge_iff_le]
    norm_num
    split_ifs <;> rfl
  · have hhead : (LOTTERY_RULES[0]!) ∈ LOTTERY_RULES := by
      rw [show (LOTTERY_RULES[0]!)
          = { label := "Minor Encouragement", amount := 10, probability := 0.4,
              color := "text-blue-500" } from rfl]
      simp [LOTTERY_RULES]
    exact selectLoop_mem r LOTTERY_RULES 0 (LOTTERY_RULES[0]!) (fun x hx => hx) hhead

/-- Witness for C2 at r = 1/2. -/
theorem C2_draw_witness :
    selectRule (1/2) = specDraw (1/2) ∧ selectRule (1/2) ∈ LOTTERY_RULES :=
  C2_draw (1/2) (by norm_num) (by norm_num)

/-- C3: on load with a stored (nonzero, hence JS-truthy) sessionStartTime t,
    if the elapsed time now - t is under the 300-second session duration the
    machine re-enters Running with remaining = duration - floor(elapsed
    seconds), keeping sessionStartTime; otherwise it ends up Idle with
    sessionStartTime cleared, and in both cases no record is appended. -/
theorem C3_resume_on_load (a : AppState) (t now : Nat)
    (hs : a.sessionStartTime = some t) (ht : 0 < t) :
    (((now : Int) - (t : Int) < SESSION_DURATION * 1000 →
       (loadState a now).isTimerRunning = true ∧
       (loadState a now).sessionStartTime = some t ∧
       (loadState a now).timeLeft
         = SESSION_DURATION - ((now : Int) - (t : Int)) / 1000 ∧
       (loadState a now).records = a.records) ∧
     (SESSION_DURATION * 1000 ≤ (now : Int) - (t : Int) →
       (loadState a now).isTimerRunning = false ∧
       (loadState a now).sessionStartTime = none ∧
       (loadState a now).records = a.records)) := by
  have ht0 : t ≠ 0 := by omega
  by_cases hrem : 0 < SESSION_DURATION - ((now : Int) - (t : Int)) / 1000
  · have hlt := (remaining_pos_iff ((now : Int) - (t : Int))).mp hrem
    constructor
    · intro _
      simp [loadState, hs, ht0, hrem]
    · intro hge
      exfalso
      omega
  · have hge : ¬ ((now : Int) - (t : Int) < SESSION_DURATION * 1000) :=
      fun h => hrem ((remaining_pos_iff ((now : Int) - (t : Int))).mpr h)
    constructor
    · intro hlt
      exact absurd hlt hge
    · intro _
      simp [loadState, hs, ht0, hrem]

/-- Witness for C3: stored start 1000 ms, loads at 201000 ms (200 s elapsed,
    running with 100 s left) and at 401000 ms (400 s elapsed, idle). -/
theorem C3_resume_on_load_witness :
    (loadState ⟨0, 1000, 0, 0, [], some 1000⟩ 201000).isTimerRunning = true ∧
    (loadState ⟨0, 1000, 0, 0, [], some 1000⟩ 201000).timeLeft = 100 ∧
    (loadState ⟨0, 1000, 0, 0, [], some 1000⟩ 401000).sessionStartTime = none ∧
    (loadState ⟨0, 1000, 0, 0, [], some 1000⟩ 401000).records = [] := by
  have h1 := C3_resume_on_load ⟨0, 1000, 0, 0, [], some 1000⟩ 1000 201000 rfl (by decide)
  have h2 := C3_resume_on_load ⟨0, 1000, 0, 0, [], some 1000⟩ 1000 401000 rfl (by decide)
  have hA := h1.1 (by decide)
  have hB := h2.2 (by decide)
  refine ⟨hA.1, ?_, hB.2.1, hB.2.2⟩
  rw [hA.2.2.1]
  decide

/-- C4 counterexample: the claimed field-for-field round trip fails: a
    snapshot with target 7 and a stale sessionStartTime (start 1 ms, load at
    400000 ms) reloads with target 1000 and sessionStartTime cleared. -/
theorem C4_counterexample :
    roundTrip ⟨3, 7, 2, 1, [], some 1⟩ 400000 ≠ ⟨3, 7, 2, 1, [], some 1⟩ ∧
    (roundTrip ⟨3, 7, 2, 1, [], some 1⟩ 400000).sessionStartTime = none ∧
    (roundTrip ⟨3, 7, 2, 1, [], some 1⟩ 400000).target = TARGET_AMOUNT := by
  exact ⟨by decide, by decide, by decide⟩

/-- C4 (amended): for snapshots that carry the constant target the app
    always writes, save-then-load preserves fund, target, successCount,
    spinsAvailable and records; sessionStartTime is preserved exactly when
    it is nonzero (JS-truthy) and the stored session has not yet expired,
    and is cleared to none otherwise. -/
theorem C4_round_trip (a : AppState) (now : Nat)
    (htarget : a.target = TARGET_AMOUNT) :
    (roundTrip a now).fund = a.fund ∧
    (roundTrip a now).target = a.target ∧
    (roundTrip a now).successCount = a.successCount ∧
    (roundTrip a now).spinsAvailable = a.spinsAvailable ∧
    (roundTrip a now).records = a.records ∧
    (roundTrip a now).sessionStartTime
      = (match a.sessionStartTime with
         | none => none
         | some t =>
             if t ≠ 0 ∧ (now : Int) - (t : Int) < SESSION_DURATION * 1000
             then some t else none) := by
  cases hsess : a.sessionStartTime with
  | none =>
      simp [roundTrip, loadState, saveState, hsess, htarget]
  | some t =>
      by_cases ht0 : t = 0
      · subst ht0
        simp [roundTrip, loadState, saveState, hsess, htarget]
      · by_cases hrem : 0 < SESSION_DURATION - ((now : Int) - (t : Int)) / 1000
        · have hlt := (remaining_pos_iff ((now : Int) - (t : Int))).mp hrem
          simp [roundTrip, loadState, saveState, hsess, ht0, hrem, htarget, hlt]
        · have hge : ¬ ((now : Int) - (t : Int) < SESSION_DURATION * 1000) :=
            fun h => hrem ((remaining_pos_iff ((now : Int) - (t : Int))).mpr h)
          simp [roundTrip, loadState, saveState, hsess, ht0, hrem, htarget, hge]

/-- Witness for C4: a live snapshot (start 1000 ms, load in the same second)
    survives the round trip completely. -/
theorem C4_round_trip_witness :
    (roundTrip ⟨5, 1000, 3, 2, [], some 1000⟩ 1000).fund = 5 ∧
    (roundTrip ⟨5, 1000, 3, 2, [], some 1000⟩ 1000).sessionStartTime = some 1000 := by
  have h := C4_round_trip ⟨5, 1000, 3, 2, [], some 1000⟩ 1000 rfl
  refine ⟨h.1, ?_⟩
  rw [h.2.2.2.2.2]
  decide

/-- C5: from any Idle state, start() then immediately abandon() changes fund
    by exactly -10 (start adds the +10 pledge with no record, abandon
    subtracts 20) and appends exactly one Failure record with amount -10 and
    description "Given Up", returning the machine to Idle. -/
theorem C5_start_abandon (s : ComponentState) (t1 t2 : Nat)
    (hIdle : s.isTimerRunning = false) (hNoSession : s.sessionStartTime = none) :
    (startTimer t1 s).fund = s.fund + PLEDGE_AMOUNT ∧
    (startTimer t1 s).records = s.records ∧
    (stopTimer t2 (startTimer t1 s)).fund = s.fund - 10 ∧
    (stopTimer t2 (startTimer t1 s)).records
      = mkRecord t2 RecordType.FAILURE (-10) "Given Up" :: s.records ∧
    (stopTimer t2 (startTimer t1 s)).isTimerRunning = false ∧
    (stopTimer t2 (startTimer t1 s)).sessionStartTime = none := by
  refine ⟨rfl, rfl, ?_, ?_, rfl, rfl⟩
  · show s.fund + PLEDGE_AMOUNT - PENALTY_TOTAL = s.fund - 10
    simp only [PLEDGE_AMOUNT, PENALTY_TOTAL]
    omega
  · show mkRecord t2 RecordType.FAILURE RECORD_FAIL_AMOUNT "Given Up" :: s.records
      = mkRecord t2 RecordType.FAILURE (-10) "Given Up" :: s.records
    norm_num [RECORD_FAIL_AMOUNT]

/-- Witness for C5 from the default state. -/
theorem C5_start_abandon_witness :
    (stopTimer 2 (startTimer 1 defaultState)).fund = defaultState.fund - 10 ∧
    (stopTimer 2 (startTimer 1 defaultState)).records
      = mkRecord 2 RecordType.FAILURE (-10) "Given Up" :: defaultState.records ∧
    (stopTimer 2 (startTimer 1 defaultState)).isTimerRunning = false := by
  have h := C5_start_abandon defaultState 1 2 rfl rfl
  exact ⟨h.2.2.1, h.2.2.2.1, h.2.2.2.2.1⟩

/-- C6: from any Idle state, start() then expire() changes fund by exactly
    +10 with no double-counting, appends exactly one Success record with
    amount +10 and description "Focus Success", increments successCount by
    1, and increments spinsAvailable by 1 exactly when the new successCount
    is a multiple of 5. -/
theorem C6_start_expire (s : ComponentState) (t1 t2 : Nat)
    (hIdle : s.isTimerRunning = false) (hNoSession : s.sessionStartTime = none) :
    (finishTimer t2 (startTimer t1 s)).fund = s.fund + 10 ∧
    (finishTimer t2 (startTimer t1 s)).records
      = mkRecord t2 RecordType.SUCCESS 10 "Focus Success" :: s.records ∧
    (finishTimer t2 (startTimer t1 s)).successCount = s.successCount + 1 ∧
    (finishTimer t2 (startTimer t1 s)).spinsAvailable
      = (if (s.successCount + 1) % 5 = 0 then s.spinsAvailable + 1
         else s.spinsAvailable) ∧
    (finishTimer t2 (startTimer t1 s)).sessionStartTime = none ∧
    (finishTimer t2 (startTimer t1 s)).isTimerRunning = false := by
  refine ⟨?_, ?_, rfl, ?_, rfl, rfl⟩
  · show s.fund + PLEDGE_AMOUNT = s.fund + 10
    norm_num [PLEDGE_AMOUNT]
  · show mkRecord t2 RecordType.SUCCESS RECORD_SUCCESS_AMOUNT "Focus Success" :: s.records
      = mkRecord t2 RecordType.SUCCESS 10 "Focus Success" :: s.records
    norm_num [RECORD_SUCCESS_AMOUNT]
  · show (if (s.successCount + 1) % SPINS_THRESHOLD = 0 then s.spinsAvailable + 1
        else s.spinsAvailable)
      = (if (s.successCount + 1) % 5 = 0 then s.spinsAvailable + 1
         else s.spinsAvailable)
    simp only [SPINS_THRESHOLD]

/-- Witness for C6 at a state with 4 prior successes: the fifth success
    grants a spin. -/
theorem C6_start_expire_witness :
    (finishTimer 2 (startTimer 1 ⟨0, [], 4, 0, none, false, 300⟩)).fund = 10 ∧
    (finishTimer 2 (startTimer 1 ⟨0, [], 4, 0, none, false, 300⟩)).successCount = 5 ∧
    (finishTimer 2 (startTimer 1 ⟨0, [], 4, 0, none, false, 300⟩)).spinsAvailable = 1 := by
  have h := C6_start_expire ⟨0, [], 4, 0, none, false, 300⟩ 1 2 rfl rfl
  refine ⟨?_, ?_, ?_⟩
  · simpa using h.1
  · simpa using h.2.2.1
  · simpa using h.2.2.2.1

/-- C7: from the default state, after exactly 5 successful session
    completions spinsAvailable equals 1 and after 10 it equals 2; deleting a
    Success record changes neither spinsAvailable nor successCount, though
    it reverses the record's fund contribution. -/
theorem C7_spin_accrual :
    runOps defaultState fiveSessions = some stateAfterFive ∧
    stateAfterFive.spinsAvailable = 1 ∧
    stateAfterFive.successCount = 5 ∧
    ((runOps defaultState tenSessions).map (fun s => s.spinsAvailable)) = some 2 ∧
    (∀ (i : String) (s : ComponentState),
        (deleteRecord i s).successCount = s.successCount ∧
        (deleteRecord i s).spinsAvailable = s.spinsAvailable) ∧
    ((stateAfterFive.records.find? (fun x => x.id == "4")).map (fun x => x.type))
      = some RecordType.SUCCESS ∧
    (deleteRecord "4" stateAfterFive).spinsAvailable = 1 ∧
    (deleteRecord "4" stateAfterFive).successCount = 5 ∧
    (deleteRecord "4" stateAfterFive).fund = stateAfterFive.fund - 10 := by
  refine ⟨by decide, by decide, by decide, by decide, ?_, by decide, by decide,
    by decide, by decide⟩
  intro i s
  cases hFind : s.records.find? (fun r => r.id == i) with
  | none => simp [deleteRecord, hFind]
  | some record => simp [deleteRecord, hFind]

/-- C8: invoking the spin operation with spinsAvailable zero or negative is
    a no-op on the whole state; with spinsAvailable positive it decrements
    spinsAvailable by exactly 1, so spinsAvailable never becomes negative
    through spin consumption. -/
theorem C8_spin_consumption (rand : ℚ) (now : Nat) (s : ComponentState) :
    (s.spinsAvailable ≤ 0 → playLottery rand now s = s) ∧
    (0 < s.spinsAvailable →
      (playLottery rand now s).spinsAvailable = s.spinsAvailable - 1) ∧
    (0 ≤ s.spinsAvailable → 0 ≤ (playLottery rand now s).spinsAvailable) := by
  by_cases hSpin : s.spinsAvailable ≤ 0
  · refine ⟨fun _ => ?_, fun h => absurd h (not_lt.mpr hSpin), fun h => ?_⟩
    · simp [playLottery, hSpin]
    · simpa [playLottery, hSpin] using h
  · refine ⟨fun h => absurd h hSpin, fun _ => ?_, fun _ => ?_⟩
    · simp [playLottery, hSpin, addStandardRecord]
    · have hdec : (playLottery rand now s).spinsAvailable = s.spinsAvailable - 1 := by
        simp [playLottery, hSpin, addStandardRecord]
      omega

/-- Witness for C8: a no-op at zero spins and a decrement from one spin. -/
theorem C8_spin_consumption_witness :
    playLottery (1/2) 7 defaultState = defaultState ∧
    (playLottery (1/2) 7 ⟨0, [], 0, 1, none, false, 300⟩).spinsAvailable = 0 ∧
    0 ≤ (playLottery (1/2) 7 ⟨0, [], 0, 1, none, false, 300⟩).spinsAvailable := by
  have h1 := (C8_spin_consumption (1/2) 7 defaultState).1 (by decide)
  have h2 := (C8_spin_consumption (1/2) 7 ⟨0, [], 0, 1, none, false, 300⟩).2.1
    (by decide)
  have h3 := (C8_spin_consumption (1/2) 7 ⟨0, [], 0, 1, none, false, 300⟩).2.2
    (by decide)
  refine ⟨h1, ?_, h3⟩
  rw [h2]
  decide

/-- C9: record ids are the decimal string of the creation millisecond, so
    records created in the same millisecond share an id regardless of their
    other fields; deleteRecord removes every record whose id equals the
    selected id but subtracts only the first matching record's amount from
    fund, so when exactly two records share the id both are removed while
    only one amount is reversed. -/
theorem C9_duplicate_ids :
    (∀ (t : Nat) (ty1 ty2 : RecordType) (a1 a2 : Int) (d1 d2 : String),
        (mkRecord t ty1 a1 d1).id = (mkRecord t ty2 a2 d2).id) ∧
    (∀ (s : ComponentState) (i : String) (r : HistoryRecord),
        s.records.find? (fun x => x.id == i) = some r →
        s.records.countP (fun x => x.id == i) = 2 →
        (deleteRecord i s).records = s.records.filter (fun x => !(x.id == i)) ∧
        (deleteRecord i s).records.length = s.records.length - 2 ∧
        (deleteRecord i s).fund = s.fund - r.amount) := by
  constructor
  · intro t ty1 ty2 a1 a2 d1 d2
    rfl
  · intro s i r hFind hCount
    have hRecords : (deleteRecord i s).records
        = s.records.filter (fun x => !(x.id == i)) := by
      simp [deleteRecord, hFind]
    have hFund : (deleteRecord i s).fund = s.fund - r.amount := by
      simp [deleteRecord, hFind]
    refine ⟨hRecords, ?_, hFund⟩
    rw [hRecords]
    have hlen := length_filter_not_add_countP (fun x => x.id == i) s.records
    omega

/-- Witness for C9: a Success and a Failure record both created at
    millisecond 7 share id "7"; deleting "7" removes both and refunds only
    the Success amount. -/
theorem C9_duplicate_ids_witness :
    (deleteRecord "7" ⟨0, [mkRecord 7 RecordType.SUCCESS 10 "Focus Success",
        mkRecord 7 RecordType.FAILURE (-10) "Given Up"], 0, 0, none, false,
        300⟩).records = [] ∧
    (deleteRecord "7" ⟨0, [mkRecord 7 RecordType.SUCCESS 10 "Focus Success",
        mkRecord 7 RecordType.FAILURE (-10) "Given Up"], 0, 0, none, false,
        300⟩).fund = -10 := by
  have h := C9_duplicate_ids.2
    ⟨0, [mkRecord 7 RecordType.SUCCESS 10 "Focus Success",
        mkRecord 7 RecordType.FAILURE (-10) "Given Up"], 0, 0, none, false, 300⟩
    "7" (mkRecord 7 RecordType.SUCCESS 10 "Focus Success") (by decide) (by decide)
  refine ⟨?_, ?_⟩
  · rw [h.1]
    decide
  · rw [h.2.2]
    decide

/-- C10: startTimer performs no Idle-precondition check: invoked on a state
    that is already Running it adds the 10-currency pledge to fund a second
    time and overwrites sessionStartTime with the current time, appending no
    record and leaving successCount and spinsAvailable unchanged. -/
theorem C10_start_unguarded (s : ComponentState) (now t0 : Nat)
    (hRunning : s.isTimerRunning = true) (hSession : s.sessionStartTime = some t0) :
    (startTimer now s).fund = s.fund + PLEDGE_AMOUNT ∧
    (startTimer now s).sessionStartTime = some now ∧
    (startTimer now s).records = s.records ∧
    (startTimer now s).successCount = s.successCount ∧
    (startTimer now s).spinsAvailable = s.spinsAvailable ∧
    (startTimer now s).isTimerRunning = true :=
  ⟨rfl, rfl, rfl, rfl, rfl, rfl⟩

/-- Witness for C10 at a running state holding one pledge already. -/
theorem C10_start_unguarded_witness :
    (startTimer 5 ⟨10, [], 0, 0, some 3, true, 250⟩).fund = 20 ∧
    (startTimer 5 ⟨10, [], 0, 0, some 3, true, 250⟩).sessionStartTime = some 5 ∧
    (startTimer 5 ⟨10, [], 0, 0, some 3, true, 250⟩).records = [] := by
  have h := C10_start_unguarded ⟨10, [], 0, 0, some 3, true, 250⟩ 5 3 rfl rfl
  refine ⟨?_, h.2.1, h.2.2.1⟩
  rw [h.1]
  decide
